import Mathlib

/-!
Shallow embedding of the `storeBookRelease` resolvers of the
pocketlib API (`src/resolvers/storeBookRelease.ts`), together with the
collaborator helpers the resolver imports.  Field names and control flow
follow the TypeScript source line by line.  Helpers imported from modules
absent from the repository snapshot (`validationService`, the error
helpers in `utils`, the admin list in `constants`) are modelled from the
specification and carry a doc comment saying so.
-/

namespace Pocketlib

/-- One page of a PDF document: the view box `[x, y, w, h]` that the
document inspector reports through `page._pageInfo.view`. -/
structure PdfPage where
  x : Rat
  y : Rat
  w : Rat
  h : Rat
deriving DecidableEq

/-- A PDF document as seen through `getDocument(url).promise`:
`numPages` is `pages.length`, and `getPage i` (1-based) returns
`pages[i-1]`. -/
structure PdfDocument where
  pages : List PdfPage
deriving DecidableEq

/-- Row of the `StoreBookPrintCover` table (only the columns the resolver
touches: `id` and `uuid`). -/
structure StoreBookPrintCover where
  id : Nat
  uuid : String
deriving DecidableEq

/-- Row of the `StoreBookPrintFile` table (only the columns the resolver
touches: `id` and `uuid`). -/
structure StoreBookPrintFile where
  id : Nat
  uuid : String
deriving DecidableEq

/-- Row of the `StoreBookRelease` table, with the columns the resolvers
read or write.  `status` is a nullable string column (legacy records may
have no status). -/
structure StoreBookRelease where
  id : Nat
  uuid : String
  userId : Nat
  storeBookId : Nat
  status : Option String
  releaseName : Option String
  releaseNotes : Option String
  publishedAt : Option Nat
  printCoverId : Option Nat
  printFileId : Option Nat
  coverId : Option Nat
  fileId : Option Nat
deriving DecidableEq

/-- Row of the `StoreBook` table (only `id` and the nullable `status`
column are read by `publishStoreBookRelease`). -/
structure StoreBook where
  id : Nat
  status : Option String
deriving DecidableEq

/-- The relational store backing `context.prisma`, restricted to the
tables the storeBookRelease resolvers touch. -/
structure Store where
  storeBookReleases : List StoreBookRelease
  storeBooks : List StoreBook
  storeBookPrintCovers : List StoreBookPrintCover
  storeBookPrintFiles : List StoreBookPrintFile
deriving DecidableEq

/-- Business-classified API errors thrown via `throwApiError` /
`throwValidationError` (from `errors.js`, absent from the snapshot; the
constructors mirror the `apiErrors` keys the resolver uses). -/
inductive ApiError where
  | notAuthenticated
  | actionNotAllowed
  | storeBookReleaseDoesNotExist
  | storeBookReleaseAlreadyPublished
  | storeBookNotPublished
  | validationFailed (messages : List String)
deriving DecidableEq

/-- Everything a resolver call can fail with: a business-classified
`ApiError`, or an unclassified JavaScript runtime failure (for example a
TypeError from dereferencing a `null` query result). -/
inductive ResolverError where
  | api (e : ApiError)
  | runtime (message : String)
deriving DecidableEq

/-- The authenticated caller (`context.user`); only `id` is read. -/
structure User where
  id : Nat
deriving DecidableEq

/-- Modelled from the spec: the length and page validators imported from
`services/validationService.js`, which is absent from the snapshot.  Per
the spec the numeric thresholds are deployment-specific configuration,
so each validator is an abstract function returning `none` on success
and `some message` on failure, exactly the value pushed into the error
list of `throwValidationError`. -/
structure ValidationConfig where
  validateReleaseNameLength : String → Option String
  validateReleaseNotesLength : String → Option String
  validateStoreBookPrintFilePages : Nat → Option String
  validateStoreBookPrintFilePageSize : Rat → Rat → Option String
  validateStoreBookPrintCoverPages : Nat → Option String
  validateStoreBookPrintCoverPageSize : Rat → Rat → Nat → Option String

/-- The resolver context: the caller, the admin allow-list from
`constants.js` (absent from the snapshot; per the spec a fixed list of
privileged identities), the validation configuration, the document
inspector (a pure function from a retrieval URL to the document, per
spec section 4.4), and the current time used for `new Date()`. -/
structure ResolverContext where
  user : Option User
  admins : List Nat
  cfg : ValidationConfig
  docs : String → PdfDocument
  now : Nat

/-- Arguments of the `publishStoreBookRelease` mutation.  `uuid` is
nullable in the source (`if (uuid == null) return null`), and
`releaseNotes` is optional. -/
structure PublishArgs where
  uuid : Option String
  releaseName : String
  releaseNotes : Option String
deriving DecidableEq

/-- Modelled from the spec: `getTableObjectFileUrl` from `utils.js`
(absent from the snapshot) — the Asset Store's `resolveRetrievalUrl`,
which other helpers in the repository spell as the CDN base followed by
the object uuid. -/
def getTableObjectFileUrl (uuid : String) : String :=
  "https://dav-backend.fra1.cdn.digitaloceanspaces.com/" ++ uuid

/-- Modelled from the spec: `throwValidationError` from `utils.js`
(absent from the snapshot).  Per spec sections 4.2 and 7 it collects the
non-null failure messages of its arguments into one list and throws a
single `validationFailed` error carrying that list when it is
non-empty; when every argument is null it does nothing. -/
def throwValidationError (errors : List (Option String)) : Except ResolverError Unit :=
  let messages := errors.filterMap id
  if messages.isEmpty then .ok ()
  else .error (.api (.validationFailed messages))

/-- `context.prisma.storeBookRelease.findFirst({ where: { uuid } })`. -/
def findStoreBookReleaseByUuid (store : Store) (uuid : String) : Option StoreBookRelease :=
  store.storeBookReleases.find? (fun r => r.uuid == uuid)

/-- Lookup of a release row by primary key, as done by the `update`
call (`where: { id: storeBookRelease.id }`). -/
def findStoreBookReleaseById (store : Store) (id : Nat) : Option StoreBookRelease :=
  store.storeBookReleases.find? (fun r => r.id == id)

/-- `context.prisma.storeBook.findFirst({ where: { id } })`. -/
def findStoreBookById (store : Store) (id : Nat) : Option StoreBook :=
  store.storeBooks.find? (fun b => b.id == id)

/-- Resolution of the `printCover` relation included by
`findFirst({ include: { printCover: true } })`: null when
`printCoverId` is null or dangling. -/
def resolvedPrintCover (store : Store) (release : StoreBookRelease) : Option StoreBookPrintCover :=
  release.printCoverId.bind fun i => store.storeBookPrintCovers.find? (fun c => c.id == i)

/-- Resolution of the `printFile` relation included by
`findFirst({ include: { printFile: true } })`: null when `printFileId`
is null or dangling. -/
def resolvedPrintFile (store : Store) (release : StoreBookRelease) : Option StoreBookPrintFile :=
  release.printFileId.bind fun f => store.storeBookPrintFiles.find? (fun c => c.id == f)

/-- Lines 96-102 of the resolver: build the error list from the name
check, push the notes check only when notes were supplied, and hand the
list to one `throwValidationError` call. -/
def validatePublishArgs (cfg : ValidationConfig) (args : PublishArgs) : Except ResolverError Unit :=
  throwValidationError
    ([cfg.validateReleaseNameLength args.releaseName] ++
      (match args.releaseNotes with
        | some notes => [cfg.validateReleaseNotesLength notes]
        | none => []))

/-- Lines 122-128 of the resolver: the `for (let i = 1; i <= printFilePages; i++)`
loop that reads every page of the interior document in order and calls
`throwValidationError(validateStoreBookPrintFilePageSize(w, h))` on each
page, so the loop stops at the first failing page. -/
def validatePrintFilePageSizes (cfg : ValidationConfig) (pages : List PdfPage) : Except ResolverError Unit :=
  match pages with
  | [] => .ok ()
  | page :: rest => do
    throwValidationError [cfg.validateStoreBookPrintFilePageSize page.w page.h]
    validatePrintFilePageSizes cfg rest

/-- Lines 108-142 of the resolver: resolve the two asset URLs, open the
interior document, check its page count, check every page size, then
open the cover document, check its page count, fetch its first page
(`getPage(1)` rejects when the document has no pages) and check its
size against the interior page count (`printFilePdf.numPages`). -/
def validatePrintDocuments (ctx : ResolverContext) (printCover : StoreBookPrintCover)
    (printFile : StoreBookPrintFile) : Except ResolverError Unit :=
  let printCoverUrl := getTableObjectFileUrl printCover.uuid
  let printFileUrl := getTableObjectFileUrl printFile.uuid
  let printFilePdf := ctx.docs printFileUrl
  let printFilePages := printFilePdf.pages.length
  do
  throwValidationError [ctx.cfg.validateStoreBookPrintFilePages printFilePages]
  validatePrintFilePageSizes ctx.cfg printFilePdf.pages
  let printCoverPdf := ctx.docs printCoverUrl
  let printCoverPages := printCoverPdf.pages.length
  throwValidationError [ctx.cfg.validateStoreBookPrintCoverPages printCoverPages]
  match printCoverPdf.pages with
  | [] => .error (.runtime "Invalid page request.")
  | firstPage :: _ =>
    throwValidationError
      [ctx.cfg.validateStoreBookPrintCoverPageSize firstPage.w firstPage.h printFilePdf.pages.length]

/-- Lines 96-143 of the resolver: the argument validation followed by
the print-document validation, the latter gated on both included
relations being non-null (`printCover != null && printFile != null`). -/
def publishValidationPhase (ctx : ResolverContext) (args : PublishArgs)
    (release : StoreBookRelease) (store : Store) : Except ResolverError Unit := do
  validatePublishArgs ctx.cfg args
  match resolvedPrintCover store release, resolvedPrintFile store release with
  | some printCover, some printFile => validatePrintDocuments ctx printCover printFile
  | _, _ => .ok ()

/-- The data the final `update` call will write: the release row key and
the request values (lines 146-154 of the resolver). -/
structure PendingWrite where
  releaseId : Nat
  releaseName : String
  releaseNotes : Option String
deriving DecidableEq

/-- The `data` object of the `update` call applied to a release row:
`status` becomes `published`, `releaseName` is overwritten,
`releaseNotes` is overwritten when the argument was supplied (an
`undefined` value in the `data` object leaves the column unchanged),
and `publishedAt` is set to the current time.  No other column is
touched. -/
def applyPublishData (pw : PendingWrite) (now : Nat) (r : StoreBookRelease) : StoreBookRelease :=
  { r with
    status := some "published"
    releaseName := some pw.releaseName
    releaseNotes :=
      match pw.releaseNotes with
      | some notes => some notes
      | none => r.releaseNotes
    publishedAt := some now }

/-- Lines 54-143 of `publishStoreBookRelease`: everything before the
`update` call.  Returns `ok none` for the null-uuid early return,
an error for any failed check, or `ok (some pendingWrite)` when every
check passed and the resolver is about to perform the persisted
mutation. -/
def publishReadPhase (ctx : ResolverContext) (args : PublishArgs) (store : Store) :
    Except ResolverError (Option PendingWrite) :=
  match args.uuid with
  | none => .ok none
  | some uuid =>
    match ctx.user with
    | none => .error (.api .notAuthenticated)
    | some user =>
      match findStoreBookReleaseByUuid store uuid with
      | none => .error (.api .storeBookReleaseDoesNotExist)
      | some storeBookRelease =>
        if user.id ∉ ctx.admins ∧ storeBookRelease.userId ≠ user.id then
          .error (.api .actionNotAllowed)
        else if storeBookRelease.status = some "published" then
          .error (.api .storeBookReleaseAlreadyPublished)
        else
          match findStoreBookById store storeBookRelease.storeBookId with
          | none => .error (.runtime "Cannot read properties of null (reading status)")
          | some storeBook =>
            if storeBook.status ≠ some "published" ∧ storeBook.status ≠ some "hidden" then
              .error (.api .storeBookNotPublished)
            else
              match publishValidationPhase ctx args storeBookRelease store with
              | .error e => .error e
              | .ok _ =>
                .ok (some
                  { releaseId := storeBookRelease.id
                    releaseName := args.releaseName
                    releaseNotes := args.releaseNotes })

/-- Lines 146-154 of `publishStoreBookRelease`: the
`prisma.storeBookRelease.update` call.  It selects the row by `id`
only — the `where` clause carries no condition on `status` — applies
the data object and returns the updated row.  A missing row is
modelled as `none` (Prisma would reject the promise). -/
def publishWritePhase (store : Store) (pw : PendingWrite) (now : Nat) :
    Option StoreBookRelease × Store :=
  match findStoreBookReleaseById store pw.releaseId with
  | none => (none, store)
  | some r =>
    let updated := applyPublishData pw now r
    (some updated,
      { store with
        storeBookReleases :=
          store.storeBookReleases.map fun x => if x.id = pw.releaseId then updated else x })

/-- `publishStoreBookRelease(parent, args, context)`: the read phase
(checks and validation) followed, only on success, by the single
persisted mutation.  The store is returned alongside the result so that
the absence of mutation on failure paths is visible. -/
def publishStoreBookRelease (ctx : ResolverContext) (args : PublishArgs) (store : Store) :
    Except ResolverError (Option StoreBookRelease) × Store :=
  match publishReadPhase ctx args store with
  | .error e => (.error e, store)
  | .ok none => (.ok none, store)
  | .ok (some pw) =>
    let (updated, store2) := publishWritePhase store pw ctx.now
    (.ok updated, store2)

/-- Decidable equality of `Except` results, so that concrete runs of the
resolvers can be checked by `decide`. -/
instance {e a : Type} [DecidableEq e] [DecidableEq a] : DecidableEq (Except e a)
  | .ok x, .ok y =>
    if h : x = y then .isTrue (by rw [h]) else .isFalse (by simp [h])
  | .ok _, .error _ => .isFalse (by simp)
  | .error _, .ok _ => .isFalse (by simp)
  | .error x, .error y =>
    if h : x = y then .isTrue (by rw [h]) else .isFalse (by simp [h])

/-- `retrieveStoreBookRelease(parent, args, context)` (lines 26-43):
returns null for a null uuid, dereferences `release.status` on the
`findFirst` result without a null check (a TypeError when no row
matches), and defaults a null status to `unpublished`. -/
def retrieveStoreBookRelease (store : Store) (uuid : Option String) :
    Except ResolverError (Option StoreBookRelease) :=
  match uuid with
  | none => .ok none
  | some u =>
    match findStoreBookReleaseByUuid store u with
    | none => .error (.runtime "Cannot read properties of null (reading status)")
    | some release =>
      .ok (some
        (if release.status = none then { release with status := some "unpublished" } else release))

end Pocketlib

namespace Pocketlib

/-! ## Helper lemmas about the publish control flow -/

/-- When the caller is authenticated and authorized, the release exists
and is not yet published, and the parent book is in an eligible status,
the read phase reduces to the outcome of the validation phase. -/
theorem publishReadPhase_checks_passed
    (ctx : ResolverContext) (args : PublishArgs) (store : Store)
    (uuid : String) (user : User) (release : StoreBookRelease) (storeBook : StoreBook)
    (huuid : args.uuid = some uuid) (huser : ctx.user = some user)
    (hfind : findStoreBookReleaseByUuid store uuid = some release)
    (hauth : user.id ∈ ctx.admins ∨ release.userId = user.id)
    (hstatus : release.status ≠ some "published")
    (hbook : findStoreBookById store release.storeBookId = some storeBook)
    (hbstatus : storeBook.status = some "published" ∨ storeBook.status = some "hidden") :
    publishReadPhase ctx args store =
      match publishValidationPhase ctx args release store with
      | .error e => .error e
      | .ok _ =>
        .ok (some
          { releaseId := release.id
            releaseName := args.releaseName
            releaseNotes := args.releaseNotes }) := by
  have hna : ¬(user.id ∉ ctx.admins ∧ release.userId ≠ user.id) := by tauto
  have hb : ¬(storeBook.status ≠ some "published" ∧ storeBook.status ≠ some "hidden") := by
    tauto
  unfold publishReadPhase
  simp only [huuid, huser, hfind, if_neg hna, if_neg hstatus, hbook, if_neg hb]

/-- When all checks pass and the validation phase fails, the whole
resolver propagates the validation error and leaves the store
untouched. -/
theorem publish_validation_error
    (ctx : ResolverContext) (args : PublishArgs) (store : Store)
    (uuid : String) (user : User) (release : StoreBookRelease) (storeBook : StoreBook)
    (err : ResolverError)
    (huuid : args.uuid = some uuid) (huser : ctx.user = some user)
    (hfind : findStoreBookReleaseByUuid store uuid = some release)
    (hauth : user.id ∈ ctx.admins ∨ release.userId = user.id)
    (hstatus : release.status ≠ some "published")
    (hbook : findStoreBookById store release.storeBookId = some storeBook)
    (hbstatus : storeBook.status = some "published" ∨ storeBook.status = some "hidden")
    (hvalid : publishValidationPhase ctx args release store = .error err) :
    publishStoreBookRelease ctx args store = (.error err, store) := by
  unfold publishStoreBookRelease
  rw [publishReadPhase_checks_passed ctx args store uuid user release storeBook
    huuid huser hfind hauth hstatus hbook hbstatus]
  simp only [hvalid]

/-- When all checks pass and the validation phase succeeds, the resolver
performs the single `update` and returns the updated row. -/
theorem publish_checks_success
    (ctx : ResolverContext) (args : PublishArgs) (store : Store)
    (uuid : String) (user : User) (release : StoreBookRelease) (storeBook : StoreBook)
    (huuid : args.uuid = some uuid) (huser : ctx.user = some user)
    (hfind : findStoreBookReleaseByUuid store uuid = some release)
    (hauth : user.id ∈ ctx.admins ∨ release.userId = user.id)
    (hstatus : release.status ≠ some "published")
    (hbook : findStoreBookById store release.storeBookId = some storeBook)
    (hbstatus : storeBook.status = some "published" ∨ storeBook.status = some "hidden")
    (hvalid : publishValidationPhase ctx args release store = .ok ())
    (hid : findStoreBookReleaseById store release.id = some release) :
    publishStoreBookRelease ctx args store =
      (.ok (some (applyPublishData
          { releaseId := release.id
            releaseName := args.releaseName
            releaseNotes := args.releaseNotes } ctx.now release)),
       { store with
         storeBookReleases :=
           store.storeBookReleases.map fun x =>
             if x.id = release.id then
               applyPublishData
                 { releaseId := release.id
                   releaseName := args.releaseName
                   releaseNotes := args.releaseNotes } ctx.now release
             else x }) := by
  unfold publishStoreBookRelease
  rw [publishReadPhase_checks_passed ctx args store uuid user release storeBook
    huuid huser hfind hauth hstatus hbook hbstatus]
  simp only [hvalid]
  unfold publishWritePhase
  simp only [hid]

/-! ## Concrete fixtures used by witnesses and counterexamples -/

/-- A concrete validation configuration: names of length at most 5,
notes of length at most 10, interior documents of at least 2 pages,
interior pages of width 100, single-page covers, and a cover width that
must equal 100 plus the interior page count (compared through the
numerator and denominator so the check is kernel-computable). -/
def cfgA : ValidationConfig where
  validateReleaseNameLength := fun s => if s.length > 5 then some "name too long" else none
  validateReleaseNotesLength := fun s => if s.length > 10 then some "notes too long" else none
  validateStoreBookPrintFilePages := fun n => if n < 2 then some "too few pages" else none
  validateStoreBookPrintFilePageSize := fun w _ => if w = 100 then none else some "bad page size"
  validateStoreBookPrintCoverPages := fun n => if n = 1 then none else some "bad cover page count"
  validateStoreBookPrintCoverPageSize := fun w _ n =>
    if w.num = 100 + (n : Int) ∧ w.den = 1 then none else some "bad cover size"

/-- A digital-only release owned by user 7, not yet published. -/
def releaseA : StoreBookRelease where
  id := 1
  uuid := "r1"
  userId := 7
  storeBookId := 11
  status := some "unpublished"
  releaseName := some "old"
  releaseNotes := some "old notes"
  publishedAt := none
  printCoverId := none
  printFileId := none
  coverId := none
  fileId := none

/-- An already-published release owned by user 7. -/
def releaseP : StoreBookRelease :=
  { releaseA with id := 2, uuid := "r2", status := some "published" }

/-- A parent book in `published` status. -/
def bookA : StoreBook := { id := 11, status := some "published" }

/-- A store holding the two releases above and their parent book. -/
def storeA : Store :=
  { storeBookReleases := [releaseA, releaseP]
    storeBooks := [bookA]
    storeBookPrintCovers := []
    storeBookPrintFiles := [] }

/-- A context whose caller is user 7 (the owner of the fixtures), with
an empty admin list and an empty document inspector. -/
def ctxA : ResolverContext :=
  { user := some { id := 7 }
    admins := []
    cfg := cfgA
    docs := fun _ => { pages := [] }
    now := 1000 }

/-- Publish arguments naming release `r1` with a valid name and no
notes. -/
def argsA : PublishArgs := { uuid := some "r1", releaseName := "Ed", releaseNotes := none }

/-! ## Claims -/

/-- C3: for every release whose current status (drawn from the data
model's domain: `unpublished`, `published`, or the legacy null treated
as unpublished) is not unpublished — hence is `published` — an
authenticated, authorized publish call fails with `AlreadyPublished`
and the store is returned unchanged. -/
theorem publish_already_published_rejected
    (ctx : ResolverContext) (args : PublishArgs) (store : Store)
    (uuid : String) (user : User) (release : StoreBookRelease)
    (huuid : args.uuid = some uuid) (huser : ctx.user = some user)
    (hfind : findStoreBookReleaseByUuid store uuid = some release)
    (hauth : user.id ∈ ctx.admins ∨ release.userId = user.id)
    (hdom : release.status = some "unpublished" ∨ release.status = some "published" ∨
      release.status = none)
    (hnu : release.status ≠ some "unpublished") (hnn : release.status ≠ none) :
    publishStoreBookRelease ctx args store =
      (.error (.api .storeBookReleaseAlreadyPublished), store) := by
  have hpub : release.status = some "published" := by tauto
  have hna : ¬(user.id ∉ ctx.admins ∧ release.userId ≠ user.id) := by tauto
  unfold publishStoreBookRelease publishReadPhase
  simp only [huuid, huser, hfind, if_neg hna, if_pos hpub]

/-- Witness for C3: publishing the already-published fixture release
`r2` fails with `AlreadyPublished` and leaves the store unchanged. -/
theorem publish_already_published_rejected_witness :
    publishStoreBookRelease ctxA
      { uuid := some "r2", releaseName := "Ed", releaseNotes := none } storeA =
      (.error (.api .storeBookReleaseAlreadyPublished), storeA) :=
  publish_already_published_rejected ctxA
    { uuid := some "r2", releaseName := "Ed", releaseNotes := none } storeA
    "r2" { id := 7 } releaseP rfl rfl rfl (Or.inr rfl)
    (Or.inr (Or.inl rfl)) (by decide) (by decide)

/-- C7: for every publish call on a release whose parent book has a
status that is neither `published` nor `hidden`, the operation fails
with `ParentNotPublished` and the store is returned unchanged,
whatever the validation configuration, the documents, and the
release-level data — so no print validation and no mutation occur. -/
theorem publish_parent_not_published_rejected
    (ctx : ResolverContext) (args : PublishArgs) (store : Store)
    (uuid : String) (user : User) (release : StoreBookRelease) (storeBook : StoreBook)
    (huuid : args.uuid = some uuid) (huser : ctx.user = some user)
    (hfind : findStoreBookReleaseByUuid store uuid = some release)
    (hauth : user.id ∈ ctx.admins ∨ release.userId = user.id)
    (hstatus : release.status ≠ some "published")
    (hbook : findStoreBookById store release.storeBookId = some storeBook)
    (hb1 : storeBook.status ≠ some "published") (hb2 : storeBook.status ≠ some "hidden") :
    publishStoreBookRelease ctx args store =
      (.error (.api .storeBookNotPublished), store) := by
  have hna : ¬(user.id ∉ ctx.admins ∧ release.userId ≠ user.id) := by tauto
  unfold publishStoreBookRelease publishReadPhase
  simp only [huuid, huser, hfind, if_neg hna, if_neg hstatus, hbook,
    if_pos (And.intro hb1 hb2)]

/-- A release owned by user 7 whose parent book 12 is in review. -/
def releaseReview : StoreBookRelease :=
  { releaseA with id := 3, uuid := "r3", storeBookId := 12 }

/-- A parent book in `review` status, not eligible for publication. -/
def bookReview : StoreBook := { id := 12, status := some "review" }

/-- A store holding the in-review parent and its release. -/
def storeReview : Store :=
  { storeBookReleases := [releaseReview]
    storeBooks := [bookReview]
    storeBookPrintCovers := []
    storeBookPrintFiles := [] }

/-- Witness for C7: publishing a release whose parent book is in
`review` fails with `ParentNotPublished` and the store is unchanged. -/
theorem publish_parent_not_published_rejected_witness :
    publishStoreBookRelease ctxA
      { uuid := some "r3", releaseName := "Ed", releaseNotes := none } storeReview =
      (.error (.api .storeBookNotPublished), storeReview) :=
  publish_parent_not_published_rejected ctxA
    { uuid := some "r3", releaseName := "Ed", releaseNotes := none } storeReview
    "r3" { id := 7 } releaseReview bookReview rfl rfl rfl (Or.inr rfl)
    (by decide) rfl (by decide) (by decide)

/-- A release owned by user 7 whose `storeBookId` points at no book row. -/
def releaseOrphan : StoreBookRelease :=
  { releaseA with id := 4, uuid := "r4", storeBookId := 99 }

/-- A store holding only the orphaned release: book 99 does not exist. -/
def storeOrphan : Store :=
  { storeBookReleases := [releaseOrphan]
    storeBooks := []
    storeBookPrintCovers := []
    storeBookPrintFiles := [] }

/-- C8 counterexample: publishing the orphaned fixture release, whose
parent book does not exist, produces the unclassified runtime failure
of dereferencing the null `findFirst` result — not a business
`NotFound` error of the `ApiError` taxonomy. -/
theorem publish_missing_store_book_counterexample :
    publishStoreBookRelease ctxA
      { uuid := some "r4", releaseName := "Ed", releaseNotes := none } storeOrphan =
      (.error (.runtime "Cannot read properties of null (reading status)"), storeOrphan) := by
  rfl

/-- C8 amended: for every publish call that reaches the parent-book
lookup and finds no row, the resolver fails with the unclassified
runtime error of reading `status` on null (the source dereferences the
lookup result without a null check); the store is unchanged. -/
theorem publish_missing_store_book_runtime
    (ctx : ResolverContext) (args : PublishArgs) (store : Store)
    (uuid : String) (user : User) (release : StoreBookRelease)
    (huuid : args.uuid = some uuid) (huser : ctx.user = some user)
    (hfind : findStoreBookReleaseByUuid store uuid = some release)
    (hauth : user.id ∈ ctx.admins ∨ release.userId = user.id)
    (hstatus : release.status ≠ some "published")
    (hbook : findStoreBookById store release.storeBookId = none) :
    publishStoreBookRelease ctx args store =
      (.error (.runtime "Cannot read properties of null (reading status)"), store) := by
  have hna : ¬(user.id ∉ ctx.admins ∧ release.userId ≠ user.id) := by tauto
  unfold publishStoreBookRelease publishReadPhase
  simp only [huuid, huser, hfind, if_neg hna, if_neg hstatus, hbook]

/-- Witness for the amended C8: the orphaned fixture discharges every
hypothesis of `publish_missing_store_book_runtime`. -/
theorem publish_missing_store_book_runtime_witness :
    publishStoreBookRelease ctxA
      { uuid := some "r4", releaseName := "Ed", releaseNotes := none } storeOrphan =
      (.error (.runtime "Cannot read properties of null (reading status)"), storeOrphan) :=
  publish_missing_store_book_runtime ctxA
    { uuid := some "r4", releaseName := "Ed", releaseNotes := none } storeOrphan
    "r4" { id := 7 } releaseOrphan rfl rfl rfl (Or.inr rfl) (by decide) rfl

/-- A context carrying no identity at all. -/
def ctxNoUser : ResolverContext :=
  { user := none
    admins := []
    cfg := cfgA
    docs := fun _ => { pages := [] }
    now := 1000 }

/-- An empty store: no releases at all. -/
def storeEmpty : Store :=
  { storeBookReleases := []
    storeBooks := []
    storeBookPrintCovers := []
    storeBookPrintFiles := [] }

/-- C9 counterexample: a publish call with no identity naming a release
that does not exist fails with `NotAuthenticated`, not with `NotFound`
— the authentication check runs before the release is loaded, contrary
to the claimed ordering. -/
theorem publish_no_identity_missing_release_counterexample :
    publishStoreBookRelease ctxNoUser
        { uuid := some "missing", releaseName := "Ed", releaseNotes := none } storeEmpty =
      (.error (.api .notAuthenticated), storeEmpty) ∧
    (publishStoreBookRelease ctxNoUser
        { uuid := some "missing", releaseName := "Ed", releaseNotes := none } storeEmpty).1 ≠
      .error (.api .storeBookReleaseDoesNotExist) := by
  exact ⟨rfl, by decide⟩

/-- C9 amended: the authentication check precedes the release load, so
an identityless call fails with `NotAuthenticated` even on a
nonexistent release; for every authenticated caller — whatever its id
and whatever the admin list — a publish call naming a release absent
from the store fails with `NotFound` before the ownership check can
run, and the store is unchanged. -/
theorem publish_authenticated_missing_release_notfound
    (ctx : ResolverContext) (args : PublishArgs) (store : Store)
    (uuid : String) (user : User)
    (huuid : args.uuid = some uuid) (huser : ctx.user = some user)
    (hfind : findStoreBookReleaseByUuid store uuid = none) :
    publishStoreBookRelease ctx args store =
      (.error (.api .storeBookReleaseDoesNotExist), store) := by
  unfold publishStoreBookRelease publishReadPhase
  simp only [huuid, huser, hfind]

/-- Witness for the amended C9: an authenticated caller publishing a
missing release gets `NotFound`. -/
theorem publish_authenticated_missing_release_notfound_witness :
    publishStoreBookRelease ctxA
      { uuid := some "missing", releaseName := "Ed", releaseNotes := none } storeEmpty =
      (.error (.api .storeBookReleaseDoesNotExist), storeEmpty) :=
  publish_authenticated_missing_release_notfound ctxA
    { uuid := some "missing", releaseName := "Ed", releaseNotes := none } storeEmpty
    "missing" { id := 7 } rfl rfl rfl

/-- C10: `retrieveStoreBookRelease` raises the runtime null-dereference
error for every uuid matching no stored release (it reads `status` on
the null lookup result), and returns the stored release — with a null
status defaulted to `unpublished` — exactly when a matching release
exists. -/
theorem retrieve_null_dereference_and_status_default :
    (∀ (store : Store) (u : String),
      findStoreBookReleaseByUuid store u = none →
      retrieveStoreBookRelease store (some u) =
        .error (.runtime "Cannot read properties of null (reading status)")) ∧
    (∀ (store : Store) (u : String) (release : StoreBookRelease),
      findStoreBookReleaseByUuid store u = some release →
      retrieveStoreBookRelease store (some u) =
        .ok (some (if release.status = none
          then { release with status := some "unpublished" } else release))) := by
  constructor
  · intro store u h
    unfold retrieveStoreBookRelease
    simp only [h]
  · intro store u release h
    unfold retrieveStoreBookRelease
    simp only [h]

/-- Witness for C10: on the fixture store, a missing uuid raises the
runtime error and an existing uuid returns the stored release. -/
theorem retrieve_null_dereference_and_status_default_witness :
    retrieveStoreBookRelease storeA (some "missing") =
        .error (.runtime "Cannot read properties of null (reading status)") ∧
    retrieveStoreBookRelease storeA (some "r1") =
        .ok (some (if releaseA.status = none
          then { releaseA with status := some "unpublished" } else releaseA)) :=
  ⟨retrieve_null_dereference_and_status_default.1 storeA "missing" rfl,
   retrieve_null_dereference_and_status_default.2 storeA "r1" releaseA rfl⟩

/-- C4: a publish call that passes authorization, the already-published
check, the parent-status check, and the whole validation phase performs
exactly one persisted mutation — the matched row gets
`status = published`, `releaseName`/`releaseNotes` from the request
(notes only when supplied, Prisma skips an undefined column), and
`publishedAt = now`, every other column and every other row unchanged —
and a call that fails any prior check performs no write at all. -/
theorem publish_single_mutation :
    (∀ (ctx : ResolverContext) (args : PublishArgs) (store : Store)
      (uuid : String) (user : User) (release : StoreBookRelease) (storeBook : StoreBook),
      args.uuid = some uuid → ctx.user = some user →
      findStoreBookReleaseByUuid store uuid = some release →
      (user.id ∈ ctx.admins ∨ release.userId = user.id) →
      release.status ≠ some "published" →
      findStoreBookById store release.storeBookId = some storeBook →
      (storeBook.status = some "published" ∨ storeBook.status = some "hidden") →
      publishValidationPhase ctx args release store = .ok () →
      findStoreBookReleaseById store release.id = some release →
      publishStoreBookRelease ctx args store =
        (.ok (some { release with
            status := some "published"
            releaseName := some args.releaseName
            releaseNotes :=
              match args.releaseNotes with
              | some notes => some notes
              | none => release.releaseNotes
            publishedAt := some ctx.now }),
         { store with
           storeBookReleases :=
             store.storeBookReleases.map fun x =>
               if x.id = release.id then
                 { release with
                   status := some "published"
                   releaseName := some args.releaseName
                   releaseNotes :=
                     match args.releaseNotes with
                     | some notes => some notes
                     | none => release.releaseNotes
                   publishedAt := some ctx.now }
               else x })) ∧
    (∀ (ctx : ResolverContext) (args : PublishArgs) (store : Store) (e : ResolverError),
      (publishStoreBookRelease ctx args store).1 = .error e →
      (publishStoreBookRelease ctx args store).2 = store) := by
  constructor
  · intro ctx args store uuid user release storeBook huuid huser hfind hauth hstatus
      hbook hbstatus hvalid hid
    rw [publish_checks_success ctx args store uuid user release storeBook
      huuid huser hfind hauth hstatus hbook hbstatus hvalid hid]
    rfl
  · intro ctx args store e h
    unfold publishStoreBookRelease at h ⊢
    cases hrp : publishReadPhase ctx args store with
    | error e2 => simp only [hrp]
    | ok o =>
      cases o with
      | none => simp only [hrp]
      | some pw =>
        simp only [hrp] at h ⊢
        cases hwp : publishWritePhase store pw ctx.now with
        | mk updated store2 =>
          rw [hwp] at h
          simp at h

/-- Witness for C4: publishing the digital-only fixture release `r1`
with name `Ed` and no notes performs exactly the one expected row
update, and an already-published fixture call writes nothing. -/
theorem publish_single_mutation_witness :
    publishStoreBookRelease ctxA argsA storeA =
      (.ok (some { releaseA with
          status := some "published"
          releaseName := some "Ed"
          publishedAt := some 1000 }),
       { storeA with storeBookReleases := [{ releaseA with
          status := some "published"
          releaseName := some "Ed"
          publishedAt := some 1000 }, releaseP] }) ∧
    (publishStoreBookRelease ctxA
      { uuid := some "r2", releaseName := "Ed", releaseNotes := none } storeA).2 = storeA := by
  constructor
  · have h := publish_single_mutation.1 ctxA argsA storeA "r1" { id := 7 } releaseA bookA
      rfl rfl rfl (Or.inr rfl) (by decide) rfl (Or.inl rfl) (by decide) rfl
    exact h
  · exact publish_single_mutation.2 ctxA
      { uuid := some "r2", releaseName := "Ed", releaseNotes := none } storeA
      (.api .storeBookReleaseAlreadyPublished) (by decide)

/-- C5: the print-validation stage is gated on both included print
relations being non-null.  When either is absent the stage is skipped
entirely — for every document inspector and every print validator the
call succeeds as soon as authorization, the status checks and the
name/notes validation pass — and when both are present a failing
interior page-count validator makes the call fail, showing the stage
runs. -/
theorem publish_print_validation_gated :
    (∀ (ctx : ResolverContext) (args : PublishArgs) (store : Store)
      (uuid : String) (user : User) (release : StoreBookRelease) (storeBook : StoreBook),
      args.uuid = some uuid → ctx.user = some user →
      findStoreBookReleaseByUuid store uuid = some release →
      (user.id ∈ ctx.admins ∨ release.userId = user.id) →
      release.status ≠ some "published" →
      findStoreBookById store release.storeBookId = some storeBook →
      (storeBook.status = some "published" ∨ storeBook.status = some "hidden") →
      (resolvedPrintCover store release = none ∨ resolvedPrintFile store release = none) →
      validatePublishArgs ctx.cfg args = .ok () →
      findStoreBookReleaseById store release.id = some release →
      ∃ updated, (publishStoreBookRelease ctx args store).1 = .ok (some updated)) ∧
    (∀ (ctx : ResolverContext) (args : PublishArgs) (store : Store)
      (uuid : String) (user : User) (release : StoreBookRelease) (storeBook : StoreBook)
      (printCover : StoreBookPrintCover) (printFile : StoreBookPrintFile) (m : String),
      args.uuid = some uuid → ctx.user = some user →
      findStoreBookReleaseByUuid store uuid = some release →
      (user.id ∈ ctx.admins ∨ release.userId = user.id) →
      release.status ≠ some "published" →
      findStoreBookById store release.storeBookId = some storeBook →
      (storeBook.status = some "published" ∨ storeBook.status = some "hidden") →
      resolvedPrintCover store release = some printCover →
      resolvedPrintFile store release = some printFile →
      validatePublishArgs ctx.cfg args = .ok () →
      ctx.cfg.validateStoreBookPrintFilePages
        (ctx.docs (getTableObjectFileUrl printFile.uuid)).pages.length = some m →
      publishStoreBookRelease ctx args store =
        (.error (.api (.validationFailed [m])), store)) := by
  constructor
  · intro ctx args store uuid user release storeBook huuid huser hfind hauth hstatus
      hbook hbstatus hprint hargs hid
    have hvalid : publishValidationPhase ctx args release store = .ok () := by
      unfold publishValidationPhase
      rcases hprint with hc | hf
      · cases hfv : resolvedPrintFile store release <;>
          simp only [hargs, hc, hfv, Bind.bind, Except.bind]
      · cases hcv : resolvedPrintCover store release <;>
          simp only [hargs, hf, hcv, Bind.bind, Except.bind]
    rw [publish_checks_success ctx args store uuid user release storeBook
      huuid huser hfind hauth hstatus hbook hbstatus hvalid hid]
    exact ⟨_, rfl⟩
  · intro ctx args store uuid user release storeBook printCover printFile m huuid huser
      hfind hauth hstatus hbook hbstatus hcover hfile hargs hpages
    have hvalid : publishValidationPhase ctx args release store =
        .error (.api (.validationFailed [m])) := by
      unfold publishValidationPhase validatePrintDocuments
      simp only [hargs, hcover, hfile, hpages, throwValidationError, Bind.bind, Except.bind,
        List.filterMap, List.isEmpty]
      rfl
    exact publish_validation_error ctx args store uuid user release storeBook _
      huuid huser hfind hauth hstatus hbook hbstatus hvalid

/-- A print cover asset row. -/
def printCoverB : StoreBookPrintCover := { id := 21, uuid := "pc1" }

/-- A print interior-file asset row. -/
def printFileB : StoreBookPrintFile := { id := 22, uuid := "pf1" }

/-- A release owned by user 7 carrying both print assets. -/
def releaseB : StoreBookRelease :=
  { releaseA with id := 5, uuid := "r5", printCoverId := some 21, printFileId := some 22 }

/-- A store holding the print release, its parent book and both print
asset rows. -/
def storeB : Store :=
  { storeBookReleases := [releaseB]
    storeBooks := [bookA]
    storeBookPrintCovers := [printCoverB]
    storeBookPrintFiles := [printFileB] }

/-- Publish arguments naming release `r5` with a valid name and no
notes. -/
def argsB : PublishArgs := { uuid := some "r5", releaseName := "Ed", releaseNotes := none }

/-- An interior page within the `cfgA` tolerance (width 100). -/
def pageGood : PdfPage := { x := 0, y := 0, w := 100, h := 200 }

/-- An interior page outside the `cfgA` tolerance. -/
def pageBad : PdfPage := { x := 0, y := 0, w := 7, h := 9 }

/-- A context whose inspector reports a one-page interior document for
`pf1` — below the two-page minimum of `cfgA`. -/
def ctxShortDoc : ResolverContext :=
  { ctxA with docs := fun url =>
      if url = getTableObjectFileUrl "pf1" then { pages := [pageGood] } else { pages := [] } }

/-- Witness for C5: the digital-only fixture publishes successfully for
a context with no documents at all, and the print fixture fails on the
interior page count, showing the stage runs when both assets are
attached. -/
theorem publish_print_validation_gated_witness :
    (∃ updated, (publishStoreBookRelease ctxA argsA storeA).1 = .ok (some updated)) ∧
    publishStoreBookRelease ctxShortDoc argsB storeB =
      (.error (.api (.validationFailed ["too few pages"])), storeB) :=
  ⟨publish_print_validation_gated.1 ctxA argsA storeA "r1" { id := 7 } releaseA bookA
      rfl rfl rfl (Or.inr rfl) (by decide) rfl (Or.inl rfl) (Or.inl rfl) (by decide) rfl,
   publish_print_validation_gated.2 ctxShortDoc argsB storeB "r5" { id := 7 } releaseB bookA
      printCoverB printFileB "too few pages" rfl rfl rfl (Or.inr rfl) (by decide) rfl
      (Or.inl rfl) rfl rfl (by decide) (by decide)⟩

/-- If some page of the list fails the interior page-size validator,
the page loop stops with a `validationFailed` error carrying the
message of the first failing page. -/
theorem validatePrintFilePageSizes_error_of_bad_page
    (cfg : ValidationConfig) (pages : List PdfPage)
    (h : ∃ p ∈ pages, cfg.validateStoreBookPrintFilePageSize p.w p.h ≠ none) :
    ∃ m, validatePrintFilePageSizes cfg pages = .error (.api (.validationFailed [m])) := by
  induction pages with
  | nil => simp at h
  | cons p rest ih =>
    cases hv : cfg.validateStoreBookPrintFilePageSize p.w p.h with
    | some m =>
      refine ⟨m, ?_⟩
      simp [validatePrintFilePageSizes, throwValidationError, hv, Bind.bind, Except.bind]
    | none =>
      have h2 : ∃ q ∈ rest, cfg.validateStoreBookPrintFilePageSize q.w q.h ≠ none := by
        rcases h with ⟨q, hq, hqv⟩
        rcases List.mem_cons.mp hq with rfl | hmem
        · exact absurd hv hqv
        · exact ⟨q, hmem, hqv⟩
      rcases ih h2 with ⟨m, hm⟩
      refine ⟨m, ?_⟩
      simp [validatePrintFilePageSizes, throwValidationError, hv, hm, Bind.bind, Except.bind]

/-- If every page of the list passes the interior page-size validator,
the page loop succeeds. -/
theorem validatePrintFilePageSizes_ok_of_all_good
    (cfg : ValidationConfig) (pages : List PdfPage)
    (h : ∀ p ∈ pages, cfg.validateStoreBookPrintFilePageSize p.w p.h = none) :
    validatePrintFilePageSizes cfg pages = .ok () := by
  induction pages with
  | nil => rfl
  | cons p rest ih =>
    have hv : cfg.validateStoreBookPrintFilePageSize p.w p.h = none :=
      h p (List.mem_cons_self p rest)
    have hrest : validatePrintFilePageSizes cfg rest = .ok () :=
      ih fun q hq => h q (List.mem_cons_of_mem p hq)
    simp [validatePrintFilePageSizes, throwValidationError, hv, hrest, Bind.bind, Except.bind]

/-- C6: with both print assets attached and every earlier check
passing, (i) any single interior page failing the page-size validator
makes the publish call fail with a `validationFailed` error — the
check covers every page of the interior document, not just the first —
and (ii) when every interior page passes and the cover page count
passes, the cover-size validator is consulted with the interior
document's page count as its third argument, and its failure fails the
call. -/
theorem publish_print_page_checks :
    (∀ (ctx : ResolverContext) (args : PublishArgs) (store : Store)
      (uuid : String) (user : User) (release : StoreBookRelease) (storeBook : StoreBook)
      (printCover : StoreBookPrintCover) (printFile : StoreBookPrintFile),
      args.uuid = some uuid → ctx.user = some user →
      findStoreBookReleaseByUuid store uuid = some release →
      (user.id ∈ ctx.admins ∨ release.userId = user.id) →
      release.status ≠ some "published" →
      findStoreBookById store release.storeBookId = some storeBook →
      (storeBook.status = some "published" ∨ storeBook.status = some "hidden") →
      resolvedPrintCover store release = some printCover →
      resolvedPrintFile store release = some printFile →
      validatePublishArgs ctx.cfg args = .ok () →
      ctx.cfg.validateStoreBookPrintFilePages
        (ctx.docs (getTableObjectFileUrl printFile.uuid)).pages.length = none →
      (∃ p ∈ (ctx.docs (getTableObjectFileUrl printFile.uuid)).pages,
        ctx.cfg.validateStoreBookPrintFilePageSize p.w p.h ≠ none) →
      ∃ msgs, publishStoreBookRelease ctx args store =
        (.error (.api (.validationFailed msgs)), store)) ∧
    (∀ (ctx : ResolverContext) (args : PublishArgs) (store : Store)
      (uuid : String) (user : User) (release : StoreBookRelease) (storeBook : StoreBook)
      (printCover : StoreBookPrintCover) (printFile : StoreBookPrintFile)
      (firstPage : PdfPage) (rest : List PdfPage) (m : String),
      args.uuid = some uuid → ctx.user = some user →
      findStoreBookReleaseByUuid store uuid = some release →
      (user.id ∈ ctx.admins ∨ release.userId = user.id) →
      release.status ≠ some "published" →
      findStoreBookById store release.storeBookId = some storeBook →
      (storeBook.status = some "published" ∨ storeBook.status = some "hidden") →
      resolvedPrintCover store release = some printCover →
      resolvedPrintFile store release = some printFile →
      validatePublishArgs ctx.cfg args = .ok () →
      ctx.cfg.validateStoreBookPrintFilePages
        (ctx.docs (getTableObjectFileUrl printFile.uuid)).pages.length = none →
      (∀ p ∈ (ctx.docs (getTableObjectFileUrl printFile.uuid)).pages,
        ctx.cfg.validateStoreBookPrintFilePageSize p.w p.h = none) →
      ctx.cfg.validateStoreBookPrintCoverPages
        (ctx.docs (getTableObjectFileUrl printCover.uuid)).pages.length = none →
      (ctx.docs (getTableObjectFileUrl printCover.uuid)).pages = firstPage :: rest →
      ctx.cfg.validateStoreBookPrintCoverPageSize firstPage.w firstPage.h
        (ctx.docs (getTableObjectFileUrl printFile.uuid)).pages.length = some m →
      publishStoreBookRelease ctx args store =
        (.error (.api (.validationFailed [m])), store)) := by
  constructor
  · intro ctx args store uuid user release storeBook printCover printFile huuid huser
      hfind hauth hstatus hbook hbstatus hcover hfile hargs hpages hbad
    rcases validatePrintFilePageSizes_error_of_bad_page ctx.cfg
      (ctx.docs (getTableObjectFileUrl printFile.uuid)).pages hbad with ⟨m, hm⟩
    have hvalid : publishValidationPhase ctx args release store =
        .error (.api (.validationFailed [m])) := by
      unfold publishValidationPhase validatePrintDocuments
      simp only [hargs, hcover, hfile, hpages, hm, throwValidationError,
        List.filterMap, List.isEmpty, Bind.bind, Except.bind]
      rfl
    exact ⟨[m], publish_validation_error ctx args store uuid user release storeBook _
      huuid huser hfind hauth hstatus hbook hbstatus hvalid⟩
  · intro ctx args store uuid user release storeBook printCover printFile firstPage rest m
      huuid huser hfind hauth hstatus hbook hbstatus hcover hfile hargs hpages hall
      hcpages hfirst hcsize
    have hloop := validatePrintFilePageSizes_ok_of_all_good ctx.cfg
      (ctx.docs (getTableObjectFileUrl printFile.uuid)).pages hall
    have hcpages2 : ctx.cfg.validateStoreBookPrintCoverPages (firstPage :: rest).length =
        none := hfirst ▸ hcpages
    have hvalid : publishValidationPhase ctx args release store =
        .error (.api (.validationFailed [m])) := by
      unfold publishValidationPhase validatePrintDocuments
      simp only [hargs, hcover, hfile, hpages, hloop, hfirst, hcpages2, hcsize,
        throwValidationError, List.filterMap, List.isEmpty, Bind.bind, Except.bind]
      rfl
    exact publish_validation_error ctx args store uuid user release storeBook _
      huuid huser hfind hauth hstatus hbook hbstatus hvalid

/-- A context whose inspector reports a three-page interior document
for `pf1` whose middle page is out of tolerance. -/
def ctxBadPage : ResolverContext :=
  { ctxA with docs := fun url =>
      if url = getTableObjectFileUrl "pf1" then { pages := [pageGood, pageBad, pageGood] }
      else { pages := [pageGood] } }

/-- A cover page whose width is outside the `cfgA` relationship for a
two-page interior. -/
def pageCoverBad : PdfPage := { x := 0, y := 0, w := 50, h := 200 }

/-- A context whose inspector reports a valid two-page interior for
`pf1` and a single cover page of the wrong width for `pc1`. -/
def ctxBadCover : ResolverContext :=
  { ctxA with docs := fun url =>
      if url = getTableObjectFileUrl "pf1" then { pages := [pageGood, pageGood] }
      else if url = getTableObjectFileUrl "pc1" then { pages := [pageCoverBad] }
      else { pages := [] } }

/-- Witness for C6: a bad second interior page fails the publish call,
and a cover whose width does not match the two-page interior fails with
the cover-size message. -/
theorem publish_print_page_checks_witness :
    (∃ msgs, publishStoreBookRelease ctxBadPage argsB storeB =
      (.error (.api (.validationFailed msgs)), storeB)) ∧
    publishStoreBookRelease ctxBadCover argsB storeB =
      (.error (.api (.validationFailed ["bad cover size"])), storeB) :=
  ⟨publish_print_page_checks.1 ctxBadPage argsB storeB "r5" { id := 7 } releaseB bookA
      printCoverB printFileB rfl rfl rfl (Or.inr rfl) (by decide) rfl (Or.inl rfl)
      rfl rfl (by decide) (by decide) ⟨pageBad, by decide, by decide⟩,
   publish_print_page_checks.2 ctxBadCover argsB storeB "r5" { id := 7 } releaseB bookA
      printCoverB printFileB pageCoverBad [] "bad cover size" rfl rfl rfl (Or.inr rfl)
      (by decide) rfl (Or.inl rfl) rfl rfl (by decide) (by decide) (by decide)
      (by decide) (by decide) (by decide)⟩

/-- C1 counterexample: on a release carrying both print assets, with a
name that fails the length check and an interior document that also
fails the page-count check, the resolver reports a `validationFailed`
error containing only the name message — the failing print stage never
runs and its message is missing, so the aggregated error does not carry
the failures of every failing stage. -/
theorem publish_validation_shortcircuit_counterexample :
    publishStoreBookRelease ctxShortDoc
        { uuid := some "r5", releaseName := "toolongname", releaseNotes := none } storeB =
      (.error (.api (.validationFailed ["name too long"])), storeB) ∧
    cfgA.validateStoreBookPrintFilePages
        ((ctxShortDoc.docs (getTableObjectFileUrl "pf1")).pages.length) =
      some "too few pages" ∧
    resolvedPrintCover storeB releaseB = some printCoverB ∧
    resolvedPrintFile storeB releaseB = some printFileB :=
  ⟨rfl, by decide, rfl, rfl⟩

/-- C1 amended: aggregation happens only within the name/notes stage —
when both the name and the supplied notes fail their length checks, the
resolver reports one `validationFailed` error carrying both messages in
order — while each print-validation check is reported through its own
separate throw, so the first failing print stage masks the later ones
(see the counterexample). -/
theorem publish_name_notes_errors_aggregated
    (ctx : ResolverContext) (args : PublishArgs) (store : Store)
    (uuid : String) (user : User) (release : StoreBookRelease) (storeBook : StoreBook)
    (m1 notes m2 : String)
    (huuid : args.uuid = some uuid) (huser : ctx.user = some user)
    (hfind : findStoreBookReleaseByUuid store uuid = some release)
    (hauth : user.id ∈ ctx.admins ∨ release.userId = user.id)
    (hstatus : release.status ≠ some "published")
    (hbook : findStoreBookById store release.storeBookId = some storeBook)
    (hbstatus : storeBook.status = some "published" ∨ storeBook.status = some "hidden")
    (hname : ctx.cfg.validateReleaseNameLength args.releaseName = some m1)
    (hnotes : args.releaseNotes = some notes)
    (hm2 : ctx.cfg.validateReleaseNotesLength notes = some m2) :
    publishStoreBookRelease ctx args store =
      (.error (.api (.validationFailed [m1, m2])), store) := by
  have hvalid : publishValidationPhase ctx args release store =
      .error (.api (.validationFailed [m1, m2])) := by
    unfold publishValidationPhase validatePublishArgs
    simp only [hnotes, hname, hm2]
    rfl
  exact publish_validation_error ctx args store uuid user release storeBook _
    huuid huser hfind hauth hstatus hbook hbstatus hvalid

/-- Witness for the amended C1: a too-long name together with too-long
notes yields one error carrying both messages. -/
theorem publish_name_notes_errors_aggregated_witness :
    publishStoreBookRelease ctxA
        { uuid := some "r1", releaseName := "toolongname",
          releaseNotes := some "this is far too long" } storeA =
      (.error (.api (.validationFailed ["name too long", "notes too long"])), storeA) :=
  publish_name_notes_errors_aggregated ctxA
    { uuid := some "r1", releaseName := "toolongname",
      releaseNotes := some "this is far too long" } storeA
    "r1" { id := 7 } releaseA bookA "name too long" "this is far too long" "notes too long"
    rfl rfl rfl (Or.inr rfl) (by decide) rfl (Or.inl rfl) (by decide) rfl (by decide)

/-- The fixture release `r1` after a successful publish at time 1000
with name `Ed` and no notes. -/
def publishedA : StoreBookRelease :=
  { releaseA with
    status := some "published"
    releaseName := some "Ed"
    publishedAt := some 1000 }

/-- C2 counterexample: an interleaving of two publish calls on the
initially-unpublished, fully-valid fixture release in which both calls
run their read phase against the initial store before either write.
The first conjunct is the (shared) read-phase outcome of both calls;
the second is the first call completing successfully; the third is the
second call's write applied to the store the first call produced — it
succeeds as well, returning a published row instead of signalling
`AlreadyPublished`, so the schedule ends with two successes. -/
theorem publish_race_two_successes_counterexample :
    publishReadPhase ctxA argsA storeA =
      .ok (some { releaseId := 1, releaseName := "Ed", releaseNotes := none }) ∧
    (publishStoreBookRelease ctxA argsA storeA).1 = .ok (some publishedA) ∧
    (publishWritePhase (publishStoreBookRelease ctxA argsA storeA).2
        { releaseId := 1, releaseName := "Ed", releaseNotes := none } 1000).1 =
      some publishedA :=
  ⟨rfl, rfl, rfl⟩

/-- C2 amended: the persisted status write of `publishStoreBookRelease`
is keyed only on the release id and is not conditioned on the status
still being unpublished at write time — applied to a row whose status
is already `published`, the write still succeeds and returns an updated
row instead of a conflict, so the read-read-write-write interleaving of
two publish calls yields two successes. -/
theorem publish_write_unconditional
    (store : Store) (pw : PendingWrite) (now : Nat) (release : StoreBookRelease)
    (hfind : findStoreBookReleaseById store pw.releaseId = some release)
    (_hpub : release.status = some "published") :
    (publishWritePhase store pw now).1 = some (applyPublishData pw now release) := by
  unfold publishWritePhase
  simp only [hfind]

/-- The fixture store after the first successful publish of `r1`. -/
def storeA1 : Store :=
  { storeA with storeBookReleases := [publishedA, releaseP] }

/-- Witness for the amended C2: replaying the pending write against the
already-published row succeeds. -/
theorem publish_write_unconditional_witness :
    (publishWritePhase storeA1
        { releaseId := 1, releaseName := "Ed", releaseNotes := none } 1000).1 =
      some (applyPublishData
        { releaseId := 1, releaseName := "Ed", releaseNotes := none } 1000 publishedA) :=
  publish_write_unconditional storeA1
    { releaseId := 1, releaseName := "Ed", releaseNotes := none } 1000 publishedA rfl rfl

end Pocketlib
